import Mathlib

/-!
Shallow embedding of the PyRDF operation-graph core, translated from the
repository sources:

* `src/PyRDF/Node.py` — the `Node` class: construction, `__getstate__`,
  `__setstate__`, `__getattr__`, `_call_handler`, `is_prunable`,
  `graph_prune`.
* `src/PyRDF/Backends/Spark/Backend.py` and `src/PyRDF/backend/Spark.py` —
  `_get_partitions`.
* `src/tests/unit/test_callable_generator.py` — the worked example graph and
  the mock engine with operation codes Define=1, Filter=2, Count=3.

Python objects are modelled as pure values.  Attribute values that only ever
matter through their truthiness (`self.value`, `self.pyroot_node`) are
modelled as `Bool` flags meaning "a truthy value is currently stored";
`None`-or-object attributes with structural content are `Option`s.  Python
exceptions become `Option`/`Except` results.  In-place mutation of a node is
explicit state passing: a function returns the updated node.
-/

/-- A generic Python value, as far as the embedded code inspects one:
operation arguments are opaque and only carried around. -/
inductive PyVal where
  | intV : Int → PyVal
  | strV : String → PyVal
  | boolV : Bool → PyVal
  | noneV : PyVal
deriving DecidableEq

/-- Operation categories.  Modelled from the spec (§2, §3): `Operation.py` is
not under `src/`; the spec states each operation has a category
Transformation / Action / Info derived from a fixed registry of names. -/
inductive OpCategory where
  | transformation : OpCategory
  | action : OpCategory
  | info : OpCategory
deriving DecidableEq

/-- Modelled from the spec: the fixed registry's Action operation names
(`Count` is the one exercised by the worked example and tests). -/
def actionOps : List String := ["Count", "Sum", "Mean", "Max", "Min", "Histo1D"]

/-- Modelled from the spec: the fixed registry's Info operation names (the
spec's glossary defines the Info category; introspection operations). -/
def infoOps : List String := ["GetColumnNames"]

/-- Modelled from the spec: category of an operation name, derived from the
fixed registry; names that are neither actions nor info operations are
transformations (`Define`, `Filter`, `Range`, ...). -/
def opCategory (name : String) : OpCategory :=
  if name ∈ actionOps then OpCategory.action
  else if name ∈ infoOps then OpCategory.info
  else OpCategory.transformation

/-- Modelled from the spec: an Operation record `{name, args, kwargs}`
(`PyRDF.Operation.Operation`, constructed in `Node._call_handler`). -/
structure Operation where
  name : String
  args : List PyVal
  kwargs : List (String × PyVal)
deriving DecidableEq

/-- Modelled from the spec: the category of an operation. -/
def Operation.category (op : Operation) : OpCategory :=
  opCategory op.name

/-- Modelled from the spec: `Operation.is_action`, true iff the category is
Action (used by `Node._call_handler` and `Node.is_prunable`). -/
def Operation.is_action (op : Operation) : Bool :=
  match op.category with
  | OpCategory.action => true
  | _ => false

/-- A PyRDF graph node (`src/PyRDF/Node.py`, class `Node`).  Fields, in
order, mirror the instance attributes set by `Node.__init__`:
`operation` (possibly `None`), `_cur_attr` (name of the incoming operation),
`value` (modelled as the flag "a truthy computed value is stored"),
`pyroot_node` (flag "a truthy PyROOT handle is stored"), and
`has_user_references` (the liveness flag); `children` is the ordered child
list.  The `get_head` closure of `__init__` carries no graph structure and
is tracked only in the attribute-name model (`initAttrs`) below. -/
inductive Node where
  | mk (operation : Option Operation) (cur_attr : String) (value : Bool)
       (pyroot_node : Bool) (has_user_references : Bool)
       (children : List Node) : Node

def Node.operation : Node → Option Operation
  | .mk op _ _ _ _ _ => op

def Node.cur_attr : Node → String
  | .mk _ a _ _ _ _ => a

def Node.value : Node → Bool
  | .mk _ _ v _ _ _ => v

def Node.pyroot_node : Node → Bool
  | .mk _ _ _ p _ _ => p

def Node.has_user_references : Node → Bool
  | .mk _ _ _ _ l _ => l

def Node.children : Node → List Node
  | .mk _ _ _ _ _ cs => cs

/-- `Node.__init__` (`Node.py` lines 48-74): a fresh node holds the given
operation, an empty `_cur_attr`, no value, no PyROOT handle, liveness `True`
and no children. -/
def Node.init (operation : Option Operation) : Node :=
  Node.mk operation "" false false true []

/-- `Node.is_prunable` (`Node.py` lines 172-199): a node with children is
never prunable; a childless node is prunable iff it has no user references,
or it carries an operation that is an action and a (truthy) computed value. -/
def Node.is_prunable : Node → Bool
  | .mk op _ v _ l cs =>
    if cs.isEmpty then
      !l || (match op with
             | some o => o.is_action && v
             | none => false)
    else
      false

mutual

/-- `Node.graph_prune` (`Node.py` lines 201-223): recursively prune the
children, keep exactly the children whose own `graph_prune` returned false,
store them back, and report `is_prunable` of the updated node. -/
def Node.graph_prune : Node → Node × Bool
  | .mk op a v p l cs =>
    let survivors := Node.pruneL cs
    (Node.mk op a v p l survivors, (Node.mk op a v p l survivors).is_prunable)

/-- The `for n in self.children` loop of `Node.graph_prune`: a child is kept
(in order, in its recursively pruned form) iff its `graph_prune` call
returned false. -/
def Node.pruneL : List Node → List Node
  | [] => []
  | c :: rest =>
    let r := Node.graph_prune c
    if r.2 then Node.pruneL rest else r.1 :: Node.pruneL rest

end

/-- The pruning predicate exactly as claim C1 (spec §4.2) states it, for
comparison with the source's `Node.is_prunable`: a childless node is claimed
prunable iff (a) liveness is false, (b) it is an Action node whose value is
set, or (c) it is an Info node whose local handle (`pyroot_node`) is set. -/
def Node.spec_prunable : Node → Bool
  | .mk op _ v p l cs =>
    if cs.isEmpty then
      !l || (match op with
             | some o =>
               (match o.category with
                | OpCategory.action => v
                | OpCategory.info => p
                | OpCategory.transformation => false)
             | none => false)
    else
      false

/-- A childless Info node whose local handle is set but which is still
referenced by the user and has no computed value: claim C1's condition (c)
says it is prunable, the code keeps it. -/
def infoLeafEx : Node :=
  Node.mk (some (Operation.mk ("GetColumnNames") [] [])) "" false true true []

/-- C1 counterexample: on the childless Info node `infoLeafEx` (liveness
true, local handle set, value unset) the claimed predicate returns true but
`Node.is_prunable` returns false — the code has no Info/localHandle pruning
condition, so the claimed "if and only if" fails at this input. -/
theorem c1_counterexample :
    Node.spec_prunable infoLeafEx = true ∧
    Node.is_prunable infoLeafEx = false ∧
    infoLeafEx.children = [] ∧
    infoLeafEx.has_user_references = true ∧
    infoLeafEx.pyroot_node = true := by
  refine ⟨by decide, by decide, rfl, rfl, rfl⟩

/-- C1 (amended): for every node, `is_prunable` returns true iff the node is
childless and either (a) its liveness flag is false or (b) it carries an
Action operation whose value is set (truthy); there is no Info/localHandle
condition, and every node with a non-empty children list yields false. -/
theorem c1_is_prunable_amended (op : Option Operation) (a : String)
    (v p l : Bool) (cs : List Node) :
    Node.is_prunable (Node.mk op a v p l cs) = true ↔
      cs = [] ∧ (l = false ∨
        ∃ o, op = some o ∧ o.is_action = true ∧ v = true) := by
  cases cs with
  | cons c rest => simp [Node.is_prunable]
  | nil =>
    cases op with
    | none => cases l <;> simp [Node.is_prunable]
    | some o =>
      cases l <;> cases v <;> cases ho : o.is_action <;>
        simp [Node.is_prunable, ho]

/-- A head node (operation `None`) left without user references and without
children: `graph_prune` reports it prunable. -/
def deadHeadEx : Node :=
  Node.mk none "" false false false []

/-- C2 counterexample: the root `graph_prune` call on the head node
`deadHeadEx` (operation none, liveness flag false, no children) returns
true, i.e. reports the head as prunable — contradicting the claim that the
head is reported retained regardless of its liveness flag. -/
theorem c2_counterexample :
    deadHeadEx.operation = none ∧
    deadHeadEx.has_user_references = false ∧
    (Node.graph_prune deadHeadEx).2 = true := by
  refine ⟨rfl, rfl, rfl⟩

/-- C2 (amended): the root `graph_prune` call on a head node (operation
none) returns true exactly when the head's liveness flag is false and all of
its children were removed; in particular, whenever the head's liveness flag
is true (the ordinary case: the caller still holds the head's proxy) the
head is reported retained regardless of whether all of its children were
removed. -/
theorem c2_head_prune_amended (a : String) (v p l : Bool) (cs : List Node) :
    (Node.graph_prune (Node.mk none a v p l cs)).2 =
      (!l && (Node.pruneL cs).isEmpty) := by
  cases h : (Node.pruneL cs).isEmpty <;>
    simp [Node.graph_prune, Node.is_prunable, h]

/-- C7: pruning never removes a node that still has surviving children —
whenever the recursive pass leaves a node's children list non-empty, that
node's own `graph_prune` result is false (the node is retained). -/
theorem c7_children_retained (n : Node)
    (h : (Node.graph_prune n).1.children ≠ []) :
    (Node.graph_prune n).2 = false := by
  cases n with
  | mk op a v p l cs =>
    have hc : (Node.graph_prune (Node.mk op a v p l cs)).1.children =
        Node.pruneL cs := by
      simp [Node.graph_prune, Node.children]
    rw [hc] at h
    have he : (Node.pruneL cs).isEmpty = false := by
      cases hs : Node.pruneL cs with
      | nil => exact absurd hs h
      | cons x xs => simp
    simp [Node.graph_prune, Node.is_prunable, he]

/-- A head with one live transformation child, used to witness C7. -/
def liveChildHeadEx : Node :=
  Node.mk none "" false false true
    [Node.mk (some (Operation.mk ("Filter") [] [])) "" false false true []]

/-- C7 witness: on `liveChildHeadEx` the pruned children list is non-empty
and `graph_prune` indeed reports the node retained. -/
theorem c7_children_retained_witness :
    (Node.graph_prune liveChildHeadEx).1.children ≠ [] ∧
    (Node.graph_prune liveChildHeadEx).2 = false :=
  have h : (Node.graph_prune liveChildHeadEx).1.children =
      [Node.mk (some (Operation.mk ("Filter") [] [])) "" false false true []] :=
    rfl
  ⟨by rw [h]; simp, c7_children_retained liveChildHeadEx (by rw [h]; simp)⟩

/-- Helper for C8: `graph_prune` is idempotent as a whole, both on the
rewritten tree and on the reported flag. -/
theorem graph_prune_pair_idem :
    (n : Node) → Node.graph_prune (Node.graph_prune n).1 = Node.graph_prune n
  | .mk op a v p l cs => by
    have h : Node.pruneL (Node.pruneL cs) = Node.pruneL cs := pruneL_pair_idem cs
    simp [Node.graph_prune, h]
where
  pruneL_pair_idem : (cs : List Node) →
      Node.pruneL (Node.pruneL cs) = Node.pruneL cs
    | [] => by simp [Node.pruneL]
    | c :: rest => by
      have hc := graph_prune_pair_idem c
      have hr := pruneL_pair_idem rest
      by_cases h2 : (Node.graph_prune c).2
      · simp [Node.pruneL, h2, hr]
      · simp [Node.pruneL, h2]
        rw [show Node.graph_prune c = ((Node.graph_prune c).1, false) from by
          rw [Prod.ext_iff]; exact ⟨rfl, by simpa using h2⟩] at hc
        simp [Node.pruneL, hc, hr]

/-- C8: pruning is idempotent — running the pruning pass a second time on an
already-pruned graph leaves the graph structurally unchanged. -/
theorem c8_prune_idempotent (g : Node) :
    (Node.graph_prune (Node.graph_prune g).1).1 = (Node.graph_prune g).1 := by
  rw [graph_prune_pair_idem]

/-- The two chain-time failure kinds of `Node.__getattr__` (`Node.py` lines
116-145).  Both are Python `AttributeError`s; the spec names the two raise
sites `ReservedNameError` (the dunder-pattern check, raised first) and
`UnsupportedOperationError` (the supported-operation membership check). -/
inductive ChainError where
  | reservedName : ChainError
  | unsupportedOperation : ChainError
deriving DecidableEq

/-- Whole-string match of the pattern `__[a-z]+__`: two leading underscores,
one or more lowercase ASCII letters, two trailing underscores. -/
def dunderCore (cs : List Char) : Bool :=
  decide (5 ≤ cs.length) &&
  decide (cs.take 2 = ['_', '_']) &&
  decide (cs.drop (cs.length - 2) = ['_', '_']) &&
  ((cs.drop 2).take (cs.length - 4)).all (fun c => decide ('a' ≤ c) && decide (c ≤ 'z'))

/-- The check `re.search` with pattern anchored by a caret and a dollar on
`__[a-z]+__` (`Node.py` line 138): without MULTILINE the caret only matches
at the start and the dollar at the end or just before one final newline. -/
def isDunderMatch (attr : String) : Bool :=
  let cs := attr.toList
  dunderCore cs ||
    (if cs.getLast? = some '\n' then dunderCore cs.dropLast else false)

def Node.set_cur_attr : Node → String → Node
  | .mk op _ v p l cs, attr => .mk op attr v p l cs

def Node.append_child : Node → Node → Node
  | .mk op a v p l cs, c => .mk op a v p l (cs ++ [c])

/-- `Node.__getattr__` (`Node.py` lines 116-145): store the incoming name in
`_cur_attr`, reject dunder-pattern names, then reject names that are not in
the current backend's supported-operation set; otherwise hand back the call
handler (modelled as `none`, i.e. no error). -/
def Node.getattr (supported : List String) (n : Node) (attr : String) :
    Node × Option ChainError :=
  let n1 := n.set_cur_attr attr
  if isDunderMatch attr then (n1, some ChainError.reservedName)
  else if attr ∈ supported then (n1, none)
  else (n1, some ChainError.unsupportedOperation)

/-- Modelled from the spec: `current_backend.check_supported` (the backend
base class is not under `src/`) raises for an operation name missing from
the supported-operation set; called again by `Node._call_handler`. -/
def check_supported (supported : List String) (name : String) :
    Option ChainError :=
  if name ∈ supported then none else some ChainError.unsupportedOperation

/-- The two proxy flavours returned by `Node._call_handler`. -/
inductive ProxyKind where
  | actionProxy : ProxyKind
  | transformationProxy : ProxyKind
deriving DecidableEq

/-- `Node._call_handler` (`Node.py` lines 147-170): re-check support for the
stored `_cur_attr`, build the Operation, create a fresh child node housing
it, append it to the children list, and return an ActionProxy for an action
operation and a TransformationProxy otherwise (the proxy is modelled as its
kind plus the wrapped new node). -/
def Node.call_handler (supported : List String) (n : Node) (args : List PyVal)
    (kwargs : List (String × PyVal)) :
    Node × Except ChainError (ProxyKind × Node) :=
  match check_supported supported n.cur_attr with
  | some e => (n, Except.error e)
  | none =>
    let op := Operation.mk n.cur_attr args kwargs
    let newNode := Node.init (some op)
    (n.append_child newNode,
     Except.ok
       (if op.is_action then ProxyKind.actionProxy
        else ProxyKind.transformationProxy, newNode))

/-- A full chained operation call on a node: Python attribute access
(`Node.__getattr__`) followed, when it did not raise, by the invocation of
the returned handler (`Node._call_handler`).  The first component is the
node after the call (mutation made explicit). -/
def Node.opCall (supported : List String) (n : Node) (attr : String)
    (args : List PyVal) (kwargs : List (String × PyVal)) :
    Node × Except ChainError (ProxyKind × Node) :=
  match n.getattr supported attr with
  | (n1, some e) => (n1, Except.error e)
  | (n1, none) => n1.call_handler supported args kwargs

/-- C3: a chained call whose operation name is not in the current backend's
supported-operation set fails — with the reserved-name error when the name
has the dunder pattern and the unsupported-operation error otherwise — and
the failing call leaves the node's children list unchanged. -/
theorem c3_chain_error (supported : List String) (n : Node) (attr : String)
    (args : List PyVal) (kwargs : List (String × PyVal))
    (h : attr ∉ supported) :
    (Node.opCall supported n attr args kwargs).2 =
      Except.error (if isDunderMatch attr then ChainError.reservedName
                    else ChainError.unsupportedOperation) ∧
    (Node.opCall supported n attr args kwargs).1.children = n.children := by
  cases n with
  | mk op a v p l cs =>
    by_cases hd : isDunderMatch attr
    · simp [Node.opCall, Node.getattr, Node.set_cur_attr, hd, Node.children]
    · simp [Node.opCall, Node.getattr, Node.set_cur_attr, hd, h, Node.children]

/-- A plain head node used to witness C3. -/
def plainNodeEx : Node := Node.init none

/-- C3 witness: calling the unsupported operation name `Count` on
`plainNodeEx` under a backend supporting only `Define` and `Filter` fails
with the unsupported-operation error and leaves the children list
unchanged. -/
theorem c3_chain_error_witness :
    (("Count" : String) ∉ (["Define", "Filter"] : List String)) ∧
    ((Node.opCall ["Define", "Filter"] plainNodeEx ("Count") [] []).2 =
       Except.error (if isDunderMatch ("Count") then ChainError.reservedName
                     else ChainError.unsupportedOperation) ∧
     (Node.opCall ["Define", "Filter"] plainNodeEx ("Count") [] []).1.children =
       plainNodeEx.children) :=
  ⟨by decide,
   c3_chain_error ["Define", "Filter"] plainNodeEx ("Count") [] [] (by decide)⟩

/-- The pickling record built by `Node.__getstate__` (`Node.py` lines
76-94): a dictionary always holding the children, plus the operation's name,
args and kwargs when an operation is present (`none` models an absent
key). -/
structure StateRecord where
  children : List Node
  operation_name : Option String
  operation_args : Option (List PyVal)
  operation_kwargs : Option (List (String × PyVal))

/-- `Node.__getstate__` (`Node.py` lines 76-94). -/
def Node.getstate (n : Node) : StateRecord :=
  match n.operation with
  | some op =>
    StateRecord.mk n.children (some op.name) (some op.args) (some op.kwargs)
  | none => StateRecord.mk n.children none none none

/-- The object produced by `Node.__setstate__` (`Node.py` lines 96-114):
pickle reconstructs a node without running `__init__`, and `__setstate__`
assigns only `children` and `operation`, so only those two attributes exist
on it (see `setstateAttrs`). -/
structure UnpickledNode where
  operation : Option Operation
  children : List Node

/-- `Node.__setstate__` (`Node.py` lines 96-114): take the children, then
rebuild the operation only when `state.get` on the operation-name key is
truthy — i.e. the key is present and the name is non-empty; a record with an
operation name but a missing args or kwargs key raises a `KeyError`
(modelled as `none`). -/
def StateRecord.setstate (s : StateRecord) : Option UnpickledNode :=
  match s.operation_name with
  | some nm =>
    if nm = "" then some (UnpickledNode.mk none s.children)
    else
      match s.operation_args, s.operation_kwargs with
      | some args, some kwargs =>
        some (UnpickledNode.mk (some (Operation.mk nm args kwargs)) s.children)
      | _, _ => none
  | none => some (UnpickledNode.mk none s.children)

/-- A record whose operation fields are all present but whose recorded name
is the empty string. -/
def emptyNameState : StateRecord := StateRecord.mk [] (some ("")) (some []) (some [])

/-- C5 counterexample: deserializing `emptyNameState` — a record in which
all three operation fields are present — still reconstructs a node whose
operation is none, because `__setstate__` tests the truthiness of the
operation name rather than the presence of the key; so "operation is none
if and only if no operation fields are present" fails at this record. -/
theorem c5_counterexample :
    emptyNameState.operation_name ≠ none ∧
    emptyNameState.operation_args ≠ none ∧
    emptyNameState.operation_kwargs ≠ none ∧
    (StateRecord.setstate emptyNameState).map UnpickledNode.operation =
      some none := by
  refine ⟨by decide, ?_, ?_, rfl⟩
  · intro hc
    exact Option.noConfusion hc
  · intro hc
    exact Option.noConfusion hc

/-- C5 (amended): serializing a node depends only on its children and
operation — the record holds the children and exactly the operation's name,
args and kwargs (as present keys iff an operation is present), never the
value or the PyROOT handle; deserializing reconstructs a node whose
operation is none iff the operation-name field is absent or the recorded
name is the empty string, and otherwise an operation with the recorded
name, args and kwargs. -/
theorem c5_serialization_amended :
    (∀ (op : Option Operation) (a : String) (v p l : Bool) (cs : List Node)
       (a2 : String) (v2 p2 l2 : Bool),
      Node.getstate (Node.mk op a v p l cs) =
        Node.getstate (Node.mk op a2 v2 p2 l2 cs)) ∧
    (∀ n : Node,
      (Node.getstate n).children = n.children ∧
      (Node.getstate n).operation_name = n.operation.map Operation.name ∧
      (Node.getstate n).operation_args = n.operation.map Operation.args ∧
      (Node.getstate n).operation_kwargs = n.operation.map Operation.kwargs) ∧
    (∀ (s : StateRecord) (nd : UnpickledNode),
      StateRecord.setstate s = some nd →
      (nd.operation = none ↔
        (s.operation_name = none ∨ s.operation_name = some ("")))) ∧
    (∀ (s : StateRecord) (nm : String) (args : List PyVal)
       (kwargs : List (String × PyVal)),
      s.operation_name = some nm → nm ≠ "" →
      s.operation_args = some args → s.operation_kwargs = some kwargs →
      StateRecord.setstate s =
        some (UnpickledNode.mk (some (Operation.mk nm args kwargs)) s.children)) := by
  refine ⟨?_, ?_, ?_, ?_⟩
  · intro op a v p l cs a2 v2 p2 l2
    cases op <;> rfl
  · intro n
    cases n with
    | mk op a v p l cs =>
      cases op <;>
        simp [Node.getstate, Node.children, Node.operation, Operation.name,
              Operation.args, Operation.kwargs]
  · intro s nd hs
    obtain ⟨cs, nm?, ar?, kw?⟩ := s
    cases nm? with
    | none =>
      simp [StateRecord.setstate] at hs
      subst hs
      simp
    | some nm =>
      by_cases hnm : nm = ""
      · subst hnm
        simp [StateRecord.setstate] at hs
        subst hs
        simp
      · cases ar? with
        | none => simp [StateRecord.setstate, hnm] at hs
        | some args =>
          cases kw? with
          | none => simp [StateRecord.setstate, hnm] at hs
          | some kwargs =>
            simp [StateRecord.setstate, hnm] at hs
            subst hs
            simp [hnm]
  · intro s nm args kwargs h1 h2 h3 h4
    obtain ⟨cs, nm?, ar?, kw?⟩ := s
    subst h1
    subst h3
    subst h4
    simp [StateRecord.setstate, h2]

/-- A record with a non-empty operation name, used to witness C5. -/
def countState : StateRecord :=
  StateRecord.mk [] (some ("Count")) (some []) (some [])

/-- The node that deserializing `countState` yields. -/
def countUnpickled : UnpickledNode :=
  UnpickledNode.mk (some (Operation.mk ("Count") [] [])) []

/-- C5 witness: the amended theorem applied at `countState`, discharging
every hypothesis there: deserialization succeeds with the recorded `Count`
operation, whose presence agrees with the non-empty name field. -/
theorem c5_serialization_amended_witness :
    StateRecord.setstate countState = some countUnpickled ∧
    (countUnpickled.operation = none ↔
      (countState.operation_name = none ∨
       countState.operation_name = some (""))) :=
  ⟨c5_serialization_amended.2.2.2 countState ("Count") [] [] rfl
     (by decide) rfl rfl,
   c5_serialization_amended.2.2.1 countState countUnpickled
     (c5_serialization_amended.2.2.2 countState ("Count") [] [] rfl
        (by decide) rfl rfl)⟩

/-- Instance attributes assigned by `Node.__init__` (`Node.py` lines
63-74). -/
def initAttrs : List String :=
  ["get_head", "operation", "children", "_cur_attr", "value", "pyroot_node",
   "has_user_references"]

/-- Instance attributes assigned by `Node.__setstate__` (`Node.py` lines
108-114): only the children list and the operation. -/
def setstateAttrs : List String := ["children", "operation"]

/-- Instance attributes read by `Node.is_prunable` (`Node.py` lines
184-187). -/
def isPrunableReads : List String :=
  ["children", "has_user_references", "operation", "value"]

/-- C10: deserialization initializes only the children list and the
operation — the value, `get_head`, `pyroot_node` and liveness
(`has_user_references`) attributes set by the constructor are all absent
from the set assigned by `__setstate__`, and the pruning check reads two of
the absent attributes (`has_user_references` and `value`), so a
deserialized node is not interchangeable with a freshly constructed one
there. -/
theorem c10_unpickled_attrs :
    (("value" : String) ∈ initAttrs ∧ ("value" : String) ∉ setstateAttrs) ∧
    (("get_head" : String) ∈ initAttrs ∧
      ("get_head" : String) ∉ setstateAttrs) ∧
    (("pyroot_node" : String) ∈ initAttrs ∧
      ("pyroot_node" : String) ∉ setstateAttrs) ∧
    (("has_user_references" : String) ∈ initAttrs ∧
      ("has_user_references" : String) ∉ setstateAttrs) ∧
    (("has_user_references" : String) ∈ isPrunableReads ∧
      ("value" : String) ∈ isPrunableReads) := by
  decide

/-- Python `int()` applied to the string value of the Spark configuration
property, modelled by `String.toInt?`; `none` models the raised
`ValueError`. -/
def pyIntOfString (s : String) : Option Int := s.toInt?

/-- `Spark.MIN_NPARTITIONS` (`src/PyRDF/backend/Spark.py` line 23) and
`SparkBackend.MIN_NPARTITIONS` (`src/PyRDF/Backends/Spark/Backend.py` line
22): the floor constant 2. -/
def MIN_NPARTITIONS : Int := 2

/-- `Spark._get_partitions` (`src/PyRDF/backend/Spark.py` lines 59-64) and,
identically, `SparkBackend._get_partitions`
(`src/PyRDF/Backends/Spark/Backend.py` lines 60-65):
the Python `or` chain over the configured `npartitions`, the
`spark.executor.instances` configuration string, and `MIN_NPARTITIONS`,
followed by `int(...)`.  `npartitions` is falsy when unset or `0`; the
configuration string (`none` when the property is unset) is falsy only when
empty. -/
def get_partitions (npartitions : Option Int)
    (executorInstances : Option String) : Option Int :=
  let fromConf : Option Int :=
    match executorInstances with
    | some s => if s = "" then some MIN_NPARTITIONS else pyIntOfString s
    | none => some MIN_NPARTITIONS
  match npartitions with
  | some k => if k = 0 then fromConf else some k
  | none => fromConf

/-- C4 counterexample: with no worker-instance signal and the configured
value 1 — which is smaller than the floor constant 2 — the partition count
comes out as 1, not 2: the code takes the first truthy value of the `or`
chain, not the larger of the configured value and the floor. -/
theorem c4_counterexample :
    get_partitions (some 1) none = some 1 ∧
    (1 : Int) < 2 ∧
    get_partitions (some 1) none ≠ some 2 := by
  refine ⟨rfl, by norm_num, by decide⟩

/-- C4 (amended): when no stronger signal is available (the
worker-instance property is unset), the partition count falls back to the
floor constant 2 exactly when the configured value is absent or 0 (the
falsy values); any non-zero configured value — including 1 — is returned
unchanged. -/
theorem c4_partitions_amended (n : Int) :
    get_partitions none none = some 2 ∧
    get_partitions (some 0) none = some 2 ∧
    (n = 0 ∨ get_partitions (some n) none = some n) := by
  refine ⟨rfl, rfl, ?_⟩
  by_cases h : n = 0
  · exact Or.inl h
  · exact Or.inr (by simp [get_partitions, h])

/-- Replace the `i`-th element of a child list by the result of `f` on it:
models mutating, through a reference, a node that sits inside its parent's
children list. -/
def setAtIdx : List Node → Nat → (Node → Node) → List Node
  | [], _, _ => []
  | c :: rest, 0, f => f c :: rest
  | c :: rest, Nat.succ i, f => c :: setAtIdx rest i f

/-- Apply a chained operation call (`Node.__getattr__` followed by
`Node._call_handler`, i.e. `Node.opCall`) to the node reached from the
given node by the child-index path: models calling the operation on the
proxy that wraps that node, with the tree it lives in updated in place. -/
def callAt (supported : List String) (attr : String) :
    List Nat → Node → Node
  | [], n => (Node.opCall supported n attr [] []).1
  | i :: rest, Node.mk op a v p l cs =>
    Node.mk op a v p l (setAtIdx cs i (fun c => callAt supported attr rest c))

/-- Clear the liveness flag of the node at the given child-index path:
models the garbage collection of the proxy wrapping that node once its
variable is rebound (the `TransformationProxy`/`ActionProxy` finalizer sets
`has_user_references = False`; `Proxy.py` is not under `src/`, the
behaviour is the spec's liveness rule in §3). -/
def releaseAt : List Nat → Node → Node
  | [], Node.mk op a v p _ cs => Node.mk op a v p false cs
  | i :: rest, Node.mk op a v p l cs =>
    Node.mk op a v p l (setAtIdx cs i (fun c => releaseAt rest c))

/-- Modelled from the tests: the mock engine `Temp` of
`src/tests/unit/test_callable_generator.py` records code 1 for `Define`,
2 for `Filter` and 3 for `Count` on every operation call and returns
itself. -/
def mockCode (name : String) : Nat :=
  if name = "Define" then 1
  else if name = "Filter" then 2
  else if name = "Count" then 3
  else 0

mutual

/-- Modelled from the spec (§4.3): `CallableGenerator` is not under `src/`.
The replay visits a node by invoking its operation against the parent's
handle (with the mock engine: recording the operation's code), records the
node in the ordered action-node list when the operation is an Action, and
then visits the node's children, the full subtree of one child before the
next sibling (pre-order depth-first).  Returns (recorded operation codes,
ordered action nodes).  A node without an operation contributes no code
(only the head lacks an operation and the traversal starts below it). -/
def visitOne : Node → List Nat × List Node
  | Node.mk (some op) a v p l cs =>
    let rest := visitChildren cs
    (mockCode op.name :: rest.1,
     if op.is_action then Node.mk (some op) a v p l cs :: rest.2 else rest.2)
  | Node.mk none _ _ _ _ cs => visitChildren cs

/-- Modelled from the spec (§4.3): visit a sibling list in order. -/
def visitChildren : List Node → List Nat × List Node
  | [] => ([], [])
  | c :: rest =>
    let r1 := visitOne c
    let r2 := visitChildren rest
    (r1.1 ++ r2.1, r1.2 ++ r2.2)

end

/-- Modelled from the spec (§4.3): replay the whole graph against the mock
engine — the head carries no operation and is not applied; the traversal
starts at the head's children. -/
def mapperVisit (root : Node) : List Nat × List Node :=
  visitChildren root.children

/-- The supported-operation set in force for the worked example. -/
def exSupported : List String := ["Define", "Filter", "Count"]

/-- The worked-example graph of claim C6
(`test_callable_generator.test_mapper_with_pruning`), built by the source's
chained-call mechanism: head H; `n1 = H.Define()` (child path `[0]`);
`n2 = H.Filter().Filter()` (paths `[1]`, `[1, 0]`); `n4 = n2.Count()`
(path `[1, 0, 0]`); `n5 = n1.Count()` (path `[0, 0]`); `n6 = H.Filter()`
(path `[2]`); then the rebinding `n5 = n1.Filter()` appends a Filter child
to `n1` (path `[0, 1]`) and drops the last proxy reference to the old Count
node at `[0, 0]`, clearing its liveness flag. -/
def exGraph : Node :=
  releaseAt [0, 0]
    (callAt exSupported ("Filter") [0]
      (callAt exSupported ("Filter") []
        (callAt exSupported ("Count") [0]
          (callAt exSupported ("Count") [1, 0]
            (callAt exSupported ("Filter") [1]
              (callAt exSupported ("Filter") []
                (callAt exSupported ("Define") [] (Node.init none))))))))

/-- The worked-example graph after the pruning pass. -/
def exPruned : Node := (Node.graph_prune exGraph).1

/-- The node `n4` of the worked example: a freshly created childless Count
node (it is the value the chained call built at path `[1, 0, 0]`). -/
def exCountNode : Node := Node.init (some (Operation.mk ("Count") [] []))

/-- C6: replaying the pruned worked-example graph against the mock engine
(codes Define=1, Filter=2, Count=3) visits the operations in exactly the
sequence 1,2,2,2,3,2, and the ordered action-node list contains only the
node `n4`. -/
theorem c6_worked_example :
    (mapperVisit exPruned).1 = [1, 2, 2, 2, 3, 2] ∧
    (mapperVisit exPruned).2 = [exCountNode] :=
  ⟨rfl, rfl⟩
